import Mathlib

/-!
Shallow embedding of the labml client-side cache
(src/app/ui/src/cache/cache.ts) in Lean 4.

Modelling conventions, following the source's own concurrency model
(single-threaded cooperative concurrency, interleaving only at `await`
suspension points):

* Timestamps are `Int` milliseconds.  Every run of synchronous code is
  treated as happening at one instant, so each synchronous segment of a
  method receives one explicit `now` parameter; a method whose body spans
  an `await` receives one time parameter per synchronous segment.
* `Promise<T>` results of the underlying network load are passed in as an
  explicit `Except E T` argument: `Except.ok v` models a resolved load,
  `Except.error e` a rejected one.  A JS `throw` escaping a method is the
  `Except.error` component of the returned result.
* TS object fields become structure fields; `null`/`undefined` becomes
  `Option`.  Mutation becomes explicit state passing: each method maps the
  pre-state (plus inputs) to the post-state (plus outputs).
* References handed out by the registry are modelled with a small heap:
  the registry stores addresses (list indices) into per-type heaps, so
  that aliasing between the registry and previously returned references
  is captured faithfully.
-/

deriving instance DecidableEq for Except

namespace LabmlCache

/-! ### Entity models (src/models/*, fields restricted to those the cache
layer reads) -/

/-- Model of `Run` (only `run_uuid` is read by the cache layer). -/
structure Run where
  run_uuid : String
deriving DecidableEq, Repr

/-- Model of `Session` (only `session_uuid` is read by the cache layer). -/
structure Session where
  session_uuid : String
deriving DecidableEq, Repr

/-- Model of `Status` (only `isRunning` is read by the cache layer). -/
structure Status where
  isRunning : Bool
deriving DecidableEq, Repr

/-- Model of `RunsList` (the cache reads and rewrites its `runs` field). -/
structure RunsList where
  runs : List Run
deriving DecidableEq, Repr

/-- Model of `SessionsList` (the cache reads and rewrites `sessions`). -/
structure SessionsList where
  sessions : List Session
deriving DecidableEq, Repr

/-- Model of `User` (opaque to the cache layer). -/
structure User where
deriving DecidableEq, Repr

/-! ### Staleness helpers (cache.ts lines 12-21) -/

def RELOAD_TIMEOUT : Int := 60 * 1000

def FORCE_RELOAD_TIMEOUT : Int := 5 * 1000

/-- `isReloadTimeout` (cache.ts line 15); the source reads the clock
itself, here the clock value `now` is an explicit argument. -/
def isReloadTimeout (now lastUpdated : Int) : Bool :=
  now - lastUpdated > RELOAD_TIMEOUT

/-- `isForceReloadTimeout` (cache.ts line 19). -/
def isForceReloadTimeout (now lastUpdated : Int) : Bool :=
  now - lastUpdated > FORCE_RELOAD_TIMEOUT

/-! ### BroadcastPromise (cache.ts lines 23-80)

Waiters are identified by `Nat` ids.  `create` synchronously registers the
caller's `(resolve, reject)` pair and, when no load is in flight, marks
the coalescer loading and starts the underlying load; it reports whether
it started one.  `resolve`/`reject` model the settlement callback: they
reset the state, swap the waiter lists to empty, and deliver the value
(resp. error) to every swapped-out waiter, in registration order. -/

structure BroadcastPromise where
  isLoading : Bool
  resolvers : List Nat
  rejectors : List Nat
deriving DecidableEq, Repr

namespace BroadcastPromise

/-- The constructor (cache.ts lines 29-33). -/
def init : BroadcastPromise :=
  { isLoading := false, resolvers := [], rejectors := [] }

/-- `create` (cache.ts lines 35-52): registers waiter `w` via `add`, then
starts a load iff `isLoading` was false.  Returns the new state and
whether this call invoked the underlying load. -/
def create (bp : BroadcastPromise) (w : Nat) : BroadcastPromise × Bool :=
  let bp1 : BroadcastPromise :=
    { bp with resolvers := bp.resolvers ++ [w], rejectors := bp.rejectors ++ [w] }
  if !bp1.isLoading then ({ bp1 with isLoading := true }, true) else (bp1, false)

/-- `resolve` (cache.ts lines 59-68): clears `isLoading`, atomically swaps
both waiter lists to empty, then calls every swapped-out resolver with
`value`.  The delivery list records `(waiter, value)` in order. -/
def resolve {T : Type} (bp : BroadcastPromise) (value : T) :
    BroadcastPromise × List (Nat × T) :=
  ({ isLoading := false, resolvers := [], rejectors := [] },
   bp.resolvers.map fun w => (w, value))

/-- `reject` (cache.ts lines 70-79): same shape as `resolve` but delivers
the error to every swapped-out rejector. -/
def reject {E : Type} (bp : BroadcastPromise) (err : E) :
    BroadcastPromise × List (Nat × E) :=
  ({ isLoading := false, resolvers := [], rejectors := [] },
   bp.rejectors.map fun w => (w, err))

/-- A sequence of `create` calls, one per waiter id in `ws`, all made
before the in-flight load settles.  Returns the final state and how many
of the calls invoked the underlying load. -/
def createMany (bp : BroadcastPromise) : List Nat → BroadcastPromise × Nat
  | [] => (bp, 0)
  | w :: ws =>
    let r1 := create bp w
    let r2 := createMany r1.1 ws
    (r2.1, (if r1.2 then 1 else 0) + r2.2)

end BroadcastPromise

/-! ### CacheObject state (cache.ts lines 82-108) -/

/-- The mutable fields of a `CacheObject<T>`: `data` (absent until the
first successful fetch or after invalidation), `lastUpdated`, `lastUsed`.
The embedded `BroadcastPromise` is modelled separately. -/
structure CacheState (T : Type) where
  data : Option T
  lastUpdated : Int
  lastUsed : Int
deriving DecidableEq, Repr

/-- The constructor state (cache.ts lines 88-91): `data` undefined,
`lastUsed = 0`, `lastUpdated = 0`. -/
def initCacheState {T : Type} : CacheState T :=
  { data := none, lastUpdated := 0, lastUsed := 0 }

/-- Result of one `get` call on a plain `CacheObject`: post-state, the
returned value (`Except.error` when the load rejected and the exception
escaped `get`), and whether the underlying `load` was invoked. -/
structure GetResult (E T : Type) where
  state : CacheState T
  result : Except E (Option T)
  didFetch : Bool
deriving DecidableEq, Repr

/-- `CacheObject.get` (cache.ts lines 95-104).  `nowCheck` is the instant
of the synchronous staleness checks (line 96); `nowDone` the instant of
the synchronous segment after the `await` of `load()` (lines 98 and 101).
On a rejected load the `await` throws, so the state is returned unchanged
and the error escapes; on success `data` and `lastUpdated` are written,
then `lastUsed`.  When no refresh is needed there is no suspension, so
`lastUsed` is written at `nowCheck`. -/
def cacheObjectGet {E T : Type} (s : CacheState T) (isRefresh : Bool)
    (nowCheck nowDone : Int) (loadResult : Except E T) : GetResult E T :=
  if s.data.isNone || (isRefresh && isForceReloadTimeout nowCheck s.lastUpdated)
      || isReloadTimeout nowCheck s.lastUpdated then
    match loadResult with
    | .error e => { state := s, result := .error e, didFetch := true }
    | .ok v =>
      { state := { data := some v, lastUpdated := nowDone, lastUsed := nowDone }
        result := .ok (some v), didFetch := true }
  else
    { state := { s with lastUsed := nowCheck }, result := .ok s.data, didFetch := false }

/-- `CacheObject.invalidate_cache` (cache.ts lines 106-108). -/
def invalidate_cache {T : Type} (s : CacheState T) : CacheState T :=
  { s with data := none }

/-! ### RunsListCache (cache.ts lines 111-169) -/

/-- JS truthiness of `args[0]` for the cache layer's filter argument
(cache.ts line 120): absent, `null` and the empty string are falsy. -/
def truthyArg : Option String → Bool
  | none => false
  | some a => !a.isEmpty

/-- Result of one `RunsListCache.get` call: post-state, returned value,
whether a fetch ran, and with which argument the underlying
`NETWORK.getRuns` was invoked (`none` when no fetch ran; `some none`
models `load(null)`). -/
structure ListGetResult (E : Type) where
  state : CacheState RunsList
  result : Except E (Option RunsList)
  didFetch : Bool
  fetchArg : Option (Option String)
deriving DecidableEq, Repr

/-- `RunsListCache.get` (cache.ts lines 119-130).  With a truthy
`args[0]` it returns `await this.load(args[0])` directly, touching no
field; otherwise it runs the base staleness policy, calling
`load(null)`, but (unlike `CacheObject.get`) never writes `lastUsed`. -/
def runsListGet {E : Type} (s : CacheState RunsList) (isRefresh : Bool)
    (arg : Option String) (nowCheck nowDone : Int)
    (loadResult : Except E RunsList) : ListGetResult E :=
  if truthyArg arg then
    match loadResult with
    | .error e => { state := s, result := .error e, didFetch := true, fetchArg := some arg }
    | .ok v => { state := s, result := .ok (some v), didFetch := true, fetchArg := some arg }
  else if s.data.isNone || (isRefresh && isForceReloadTimeout nowCheck s.lastUpdated)
      || isReloadTimeout nowCheck s.lastUpdated then
    match loadResult with
    | .error e => { state := s, result := .error e, didFetch := true, fetchArg := some none }
    | .ok v =>
      { state := { s with data := some v, lastUpdated := nowDone }
        result := .ok (some v), didFetch := true, fetchArg := some none }
  else
    { state := s, result := .ok s.data, didFetch := false, fetchArg := none }

/-- `RunsListCache.deleteRuns` (cache.ts lines 132-146).  The local
filter of `data.runs` happens synchronously, before the remote
`NETWORK.deleteRuns` call; the remote outcome (`remote`) is awaited and
returned as the call's outcome but never affects the local state. -/
def deleteRuns {E : Type} (s : CacheState RunsList) (runUUIDS : List String)
    (remote : Except E Unit) : CacheState RunsList × Except E Unit :=
  let s1 : CacheState RunsList :=
    match s.data with
    | some d =>
      let kept := d.runs.filter fun r => !(runUUIDS.contains r.run_uuid)
      { s with data := some { runs := kept } }
    | none => s
  (s1, remote)

/-- `SessionsListCache.deleteSessions` (cache.ts lines 179-193), the
sessions analogue; the id set is modelled as a list with `contains`
membership. -/
def deleteSessions {E : Type} (s : CacheState SessionsList)
    (sessionUUIDS : List String) (remote : Except E Unit) :
    CacheState SessionsList × Except E Unit :=
  let s1 : CacheState SessionsList :=
    match s.data with
    | some d =>
      let kept := d.sessions.filter fun x => !(sessionUUIDS.contains x.session_uuid)
      { s with data := some { sessions := kept } }
    | none => s
  (s1, remote)

/-! ### Status-coupled caches (cache.ts lines 206-241 and 380-416) -/

/-- Result of one `RunCache.get` / `AnalysisDataCache.get` call: the
extra flag records whether the cascade `statusCache.get(true)` was
issued. -/
structure StatusCoupledGetResult (E T : Type) where
  state : CacheState T
  result : Except E (Option T)
  didFetch : Bool
  statusForced : Bool
deriving DecidableEq, Repr

/-- `RunCache.get` (cache.ts lines 223-236).  `status` is the value the
initial `await this.statusCache.get()` returned.  `nowCheck` is the
instant of the staleness checks (line 226); `nowDone` that of the
synchronous segment after the `await` of `load()` (line 228); `nowCasc`
that of the cascade condition's clock read (line 230).  Note the cascade
condition re-reads `this.lastUpdated` after line 228 updated it.  This
override never writes `lastUsed`. -/
def runCacheGet {E T : Type} (s : CacheState T) (status : Status)
    (isRefresh : Bool) (nowCheck nowDone nowCasc : Int)
    (loadResult : Except E T) : StatusCoupledGetResult E T :=
  if s.data.isNone || (status.isRunning && isReloadTimeout nowCheck s.lastUpdated)
      || (isRefresh && isForceReloadTimeout nowCheck s.lastUpdated) then
    match loadResult with
    | .error e => { state := s, result := .error e, didFetch := true, statusForced := false }
    | .ok v =>
      let s1 : CacheState T := { s with data := some v, lastUpdated := nowDone }
      { state := s1, result := .ok (some v), didFetch := true
        statusForced := (status.isRunning && isReloadTimeout nowCasc s1.lastUpdated) || isRefresh }
  else
    { state := s, result := .ok s.data, didFetch := false, statusForced := false }

/-- `AnalysisDataCache.get` (cache.ts lines 398-411): textually the same
body as `RunCache.get`, against the analysis payload type. -/
def analysisDataCacheGet {E T : Type} (s : CacheState T) (status : Status)
    (isRefresh : Bool) (nowCheck nowDone nowCasc : Int)
    (loadResult : Except E T) : StatusCoupledGetResult E T :=
  if s.data.isNone || (status.isRunning && isReloadTimeout nowCheck s.lastUpdated)
      || (isRefresh && isForceReloadTimeout nowCheck s.lastUpdated) then
    match loadResult with
    | .error e => { state := s, result := .error e, didFetch := true, statusForced := false }
    | .ok v =>
      let s1 : CacheState T := { s with data := some v, lastUpdated := nowDone }
      { state := s1, result := .ok (some v), didFetch := true
        statusForced := (status.isRunning && isReloadTimeout nowCasc s1.lastUpdated) || isRefresh }
  else
    { state := s, result := .ok s.data, didFetch := false, statusForced := false }

/-- `SessionCache.get` (cache.ts lines 243-261): `SessionCache` declares
no `get` override, so a call dispatches to the inherited
`CacheObject.get`; in particular no status value enters the decision. -/
def sessionCacheGet {E : Type} (s : CacheState Session) (isRefresh : Bool)
    (nowCheck nowDone : Int) (loadResult : Except E Session) : GetResult E Session :=
  cacheObjectGet s isRefresh nowCheck nowDone loadResult

/-! ### The registry (cache.ts lines 439-526)

The `Cache` class hands out references to per-identity cache objects.  To
capture aliasing between the registry and references it returned earlier,
objects live in per-type heaps (lists indexed by address); the registry's
fields hold addresses.  The heaps only grow: dropping a registry field
never destroys the object a caller may still reference. -/

structure RegistryState where
  runs : List (String × Nat)
  sessions : List (String × Nat)
  runStatuses : List (String × Nat)
  sessionStatuses : List (String × Nat)
  user : Option Nat
  runsList : Option Nat
  sessionsList : Option Nat
deriving DecidableEq, Repr

structure World where
  cache : RegistryState
  runHeap : List (CacheState Run)
  userHeap : List (CacheState User)
  runsListHeap : List (CacheState RunsList)
deriving DecidableEq, Repr

/-- `new Cache()` (cache.ts lines 449-457) over empty heaps. -/
def initWorld : World :=
  { cache := { runs := [], sessions := [], runStatuses := [], sessionStatuses := [],
               user := none, runsList := none, sessionsList := none },
    runHeap := [], userHeap := [], runsListHeap := [] }

/-- `Cache.getRun` (cache.ts lines 459-465): lookup-or-create keyed by
uuid.  A fresh `RunCache` starts in the constructor state. -/
def cacheGetRun (w : World) (uuid : String) : World × Nat :=
  match (w.cache.runs.lookup uuid) with
  | some a => (w, a)
  | none =>
    let a := w.runHeap.length
    let c := { w.cache with runs := (uuid, a) :: w.cache.runs }
    ({ w with cache := c, runHeap := w.runHeap ++ [initCacheState] }, a)

/-- `Cache.getRunsList` (cache.ts lines 475-481): singleton
lookup-or-create. -/
def cacheGetRunsList (w : World) : World × Nat :=
  match w.cache.runsList with
  | some a => (w, a)
  | none =>
    let a := w.runsListHeap.length
    let c := { w.cache with runsList := some a }
    ({ w with cache := c, runsListHeap := w.runsListHeap ++ [initCacheState] }, a)

/-- `Cache.getUser` (cache.ts lines 507-513): singleton
lookup-or-create. -/
def cacheGetUser (w : World) : World × Nat :=
  match w.cache.user with
  | some a => (w, a)
  | none =>
    let a := w.userHeap.length
    let c := { w.cache with user := some a }
    ({ w with cache := c, userHeap := w.userHeap ++ [initCacheState] }, a)

/-- `Cache.invalidateCache` (cache.ts lines 515-525): resets the four
keyed mappings to empty, calls `invalidate_cache()` on the user singleton
when present (the `user` field itself is kept), and nulls the
`runsList`/`sessionsList` references.  No heap object other than the user
singleton is touched. -/
def invalidateCache (w : World) : World :=
  let newUserHeap :=
    match w.cache.user with
    | some a => w.userHeap.set a (invalidate_cache (w.userHeap.getD a initCacheState))
    | none => w.userHeap
  let c := { w.cache with
             runs := ([] : List (String × Nat)),
             sessions := ([] : List (String × Nat)),
             runStatuses := ([] : List (String × Nat)),
             sessionStatuses := ([] : List (String × Nat)),
             runsList := (none : Option Nat),
             sessionsList := (none : Option Nat) }
  { w with cache := c, userHeap := newUserHeap }

/-! ### Theorems -/

/-- While a load is in flight, further `create` calls only append waiters
and never start a second load. -/
theorem createMany_of_isLoading (bp : BroadcastPromise) (ws : List Nat)
    (h : bp.isLoading = true) :
    BroadcastPromise.createMany bp ws =
      ({ bp with resolvers := bp.resolvers ++ ws, rejectors := bp.rejectors ++ ws }, 0) := by
  induction ws generalizing bp with
  | nil => simp [BroadcastPromise.createMany]
  | cons w rest ih =>
    simp only [BroadcastPromise.createMany, BroadcastPromise.create, h, Bool.not_true,
      Bool.false_eq_true, if_false]
    rw [ih _ rfl]
    simp

/-- From the idle initial state, a non-empty burst of `create` calls
starts exactly one load and registers every caller. -/
theorem createMany_init_cons (w : Nat) (rest : List Nat) :
    BroadcastPromise.createMany BroadcastPromise.init (w :: rest) =
      ({ isLoading := true, resolvers := w :: rest, rejectors := w :: rest }, 1) := by
  simp only [BroadcastPromise.createMany, BroadcastPromise.create, BroadcastPromise.init]
  rw [createMany_of_isLoading _ _ rfl]
  simp

/-- Claim C1: for every burst of N >= 1 `create` calls made from the idle
state before the in-flight fetch settles, exactly one underlying load is
invoked; every one of the N callers is registered; `resolve` (resp.
`reject`) delivers the identical value (resp. error) to all N of them in
order; after either settlement the state equals the initial state
(`isLoading` false, waiter lists empty); and a `create` call from that
reset state starts a brand-new load. -/
theorem broadcastPromise_coalesces {T E : Type} (v : T) (e : E) (ws : List Nat)
    (hne : ws ≠ []) :
    (BroadcastPromise.createMany BroadcastPromise.init ws).2 = 1 ∧
    (BroadcastPromise.createMany BroadcastPromise.init ws).1.resolvers = ws ∧
    (BroadcastPromise.createMany BroadcastPromise.init ws).1.rejectors = ws ∧
    BroadcastPromise.resolve (BroadcastPromise.createMany BroadcastPromise.init ws).1 v =
      (BroadcastPromise.init, ws.map fun w => (w, v)) ∧
    BroadcastPromise.reject (BroadcastPromise.createMany BroadcastPromise.init ws).1 e =
      (BroadcastPromise.init, ws.map fun w => (w, e)) ∧
    (∀ w : Nat, (BroadcastPromise.create BroadcastPromise.init w).2 = true) := by
  obtain ⟨w, rest, rfl⟩ := List.exists_cons_of_ne_nil hne
  rw [createMany_init_cons]
  refine ⟨rfl, rfl, rfl, ?_, ?_, ?_⟩
  · simp [BroadcastPromise.resolve, BroadcastPromise.init]
  · simp [BroadcastPromise.reject, BroadcastPromise.init]
  · intro x
    simp [BroadcastPromise.create, BroadcastPromise.init]

/-- Witness for C1 at the concrete burst of three waiters. -/
theorem broadcastPromise_coalesces_witness :
    ([0, 1, 2] : List Nat) ≠ [] ∧
    (BroadcastPromise.createMany BroadcastPromise.init [0, 1, 2]).2 = 1 :=
  ⟨by decide, (broadcastPromise_coalesces (5 : Nat) (7 : Nat) [0, 1, 2] (by decide)).1⟩

/-- `CacheObject.get` invokes `load` exactly when the line-96 condition
holds. -/
theorem cacheObjectGet_didFetch {E T : Type} (s : CacheState T) (isRefresh : Bool)
    (nowCheck nowDone : Int) (lr : Except E T) :
    (cacheObjectGet s isRefresh nowCheck nowDone lr).didFetch =
      (s.data.isNone || (isRefresh && isForceReloadTimeout nowCheck s.lastUpdated)
        || isReloadTimeout nowCheck s.lastUpdated) := by
  unfold cacheObjectGet
  split
  · cases lr <;> simp_all
  · simp_all [Option.isSome_iff_ne_none]

/-- The line-96 refresh condition, read as a proposition in the order the
claims state it: value absent, or soft-stale, or a forced refresh of a
force-stale entry. -/
theorem refreshCond_iff {T : Type} (dataOpt : Option T) (isRefresh : Bool) (now l : Int) :
    (dataOpt.isNone || (isRefresh && isForceReloadTimeout now l)
      || isReloadTimeout now l) = true ↔
    (dataOpt = none ∨ now - l > RELOAD_TIMEOUT ∨
      (isRefresh = true ∧ now - l > FORCE_RELOAD_TIMEOUT)) := by
  simp only [Bool.or_eq_true, Bool.and_eq_true, Option.isNone_iff_eq_none,
    isReloadTimeout, isForceReloadTimeout, decide_eq_true_eq]
  tauto

/-- Claim C2: `get(isRefresh)` refreshes (invokes `load`, and on success
stamps `lastUpdated` with the post-load clock) if and only if the value
is absent, or `now - lastUpdated > RELOAD_TIMEOUT`, or `isRefresh` holds
together with `now - lastUpdated > FORCE_RELOAD_TIMEOUT`; in every other
case it performs zero fetches and returns the cached value with `data`
and `lastUpdated` unchanged. -/
theorem cacheObjectGet_refresh_iff {E T : Type} (s : CacheState T) (isRefresh : Bool)
    (nowCheck nowDone : Int) (loadResult : Except E T) :
    ((cacheObjectGet s isRefresh nowCheck nowDone loadResult).didFetch = true ↔
      (s.data = none ∨ nowCheck - s.lastUpdated > RELOAD_TIMEOUT ∨
        (isRefresh = true ∧ nowCheck - s.lastUpdated > FORCE_RELOAD_TIMEOUT))) ∧
    (∀ v : T, loadResult = Except.ok v →
      (cacheObjectGet s isRefresh nowCheck nowDone loadResult).didFetch = true →
      (cacheObjectGet s isRefresh nowCheck nowDone loadResult).state.data = some v ∧
      (cacheObjectGet s isRefresh nowCheck nowDone loadResult).state.lastUpdated = nowDone ∧
      (cacheObjectGet s isRefresh nowCheck nowDone loadResult).result = Except.ok (some v)) ∧
    ((cacheObjectGet s isRefresh nowCheck nowDone loadResult).didFetch = false →
      (cacheObjectGet s isRefresh nowCheck nowDone loadResult).state.data = s.data ∧
      (cacheObjectGet s isRefresh nowCheck nowDone loadResult).state.lastUpdated = s.lastUpdated ∧
      (cacheObjectGet s isRefresh nowCheck nowDone loadResult).result = Except.ok s.data) := by
  refine ⟨?_, ?_, ?_⟩
  · rw [cacheObjectGet_didFetch]
    exact refreshCond_iff s.data isRefresh nowCheck s.lastUpdated
  · intro v hv hf
    subst hv
    rw [cacheObjectGet_didFetch] at hf
    unfold cacheObjectGet
    rw [if_pos hf]
    exact ⟨rfl, rfl, rfl⟩
  · intro hf
    rw [cacheObjectGet_didFetch] at hf
    unfold cacheObjectGet
    rw [if_neg (by simp [hf])]
    exact ⟨rfl, rfl, rfl⟩

/-- Witness for C2: an entry with no cached value fetches, stores the
loaded value and stamps the post-load time. -/
theorem cacheObjectGet_refresh_iff_witness :
    (cacheObjectGet (E := Nat) (T := Nat) initCacheState false 1000 1200
      (Except.ok 42)).state.data = some 42 :=
  ((cacheObjectGet_refresh_iff initCacheState false 1000 1200 (Except.ok 42)).2.1
    42 rfl (by decide)).1

/-- Counterexample to claim C5 as stated: an entry holding the stale
value 42 (`lastUpdated = 0`, clock `70000`) whose load rejects with
error 7 makes `get` fail with that error instead of returning the stale
42. -/
theorem staleOnError_counterexample :
    (cacheObjectGet (E := Nat) (T := Nat) { data := some 42, lastUpdated := 0, lastUsed := 0 }
        false 70000 70000 (Except.error 7)).result = Except.error 7 ∧
    (cacheObjectGet (E := Nat) (T := Nat) { data := some 42, lastUpdated := 0, lastUsed := 0 }
        false 70000 70000 (Except.error 7)).result ≠ Except.ok (some 42) := by
  decide

/-- Claim C5 (amended): when the refresh condition holds and the load
fails, `get` propagates the failure even if a stale cached value is
present; the stale value merely stays stored (the whole state is
unchanged) and can only be served by a later call whose refresh
condition is false. -/
theorem cacheObjectGet_error_propagates {E T : Type} (s : CacheState T) (isRefresh : Bool)
    (nowCheck nowDone : Int) (e : E)
    (hstale : isReloadTimeout nowCheck s.lastUpdated = true) :
    (cacheObjectGet s isRefresh nowCheck nowDone (Except.error e)).result = Except.error e ∧
    (cacheObjectGet s isRefresh nowCheck nowDone (Except.error e)).state = s := by
  unfold cacheObjectGet
  rw [if_pos (by simp [hstale])]
  exact ⟨rfl, rfl⟩

/-- Witness for the amended C5 at the concrete stale entry. -/
theorem cacheObjectGet_error_propagates_witness :
    isReloadTimeout 70000 0 = true ∧
    (cacheObjectGet (E := Nat) (T := Nat) { data := some 42, lastUpdated := 0, lastUsed := 0 }
      false 70000 70000 (Except.error 7)).state =
      { data := some 42, lastUpdated := 0, lastUsed := 0 } :=
  ⟨by decide,
   (cacheObjectGet_error_propagates { data := some 42, lastUpdated := 0, lastUsed := 0 }
     false 70000 70000 7 (by decide)).2⟩

/-- Claim C6: a failed refresh propagates the error to every waiter
coalesced on that attempt (each registered rejector receives the same
error, and the coalescer resets), and the entry's stored fields are left
entirely unchanged; moreover `lastUpdated` moves only when the load
succeeded, and then to the post-load clock. -/
theorem failedLoad_frame {E T : Type} (bp : BroadcastPromise) (e : E)
    (s : CacheState T) (isRefresh : Bool) (nowCheck nowDone : Int)
    (hfetch : (cacheObjectGet s isRefresh nowCheck nowDone
      ((Except.error e : Except E T))).didFetch = true) :
    (BroadcastPromise.reject bp e).2 = bp.rejectors.map (fun w => (w, e)) ∧
    (BroadcastPromise.reject bp e).1 = BroadcastPromise.init ∧
    (cacheObjectGet s isRefresh nowCheck nowDone (Except.error e)).state = s ∧
    (cacheObjectGet s isRefresh nowCheck nowDone (Except.error e)).result = Except.error e ∧
    (∀ lr : Except E T,
      (cacheObjectGet s isRefresh nowCheck nowDone lr).state.lastUpdated ≠ s.lastUpdated →
      (∃ v, lr = Except.ok v) ∧
      (cacheObjectGet s isRefresh nowCheck nowDone lr).state.lastUpdated = nowDone) := by
  rw [cacheObjectGet_didFetch] at hfetch
  refine ⟨rfl, rfl, ?_, ?_, ?_⟩
  · unfold cacheObjectGet
    rw [if_pos hfetch]
  · unfold cacheObjectGet
    rw [if_pos hfetch]
  · intro lr hne
    by_cases hc : (s.data.isNone || (isRefresh && isForceReloadTimeout nowCheck s.lastUpdated)
        || isReloadTimeout nowCheck s.lastUpdated) = true
    · unfold cacheObjectGet at hne ⊢
      rw [if_pos hc] at hne ⊢
      cases lr with
      | error e2 => simp at hne
      | ok v => exact ⟨⟨v, rfl⟩, rfl⟩
    · unfold cacheObjectGet at hne
      rw [if_neg hc] at hne
      simp at hne

/-- Witness for C6 on a stale empty entry with two coalesced waiters. -/
theorem failedLoad_frame_witness :
    (cacheObjectGet (E := Nat) (T := Nat) initCacheState false 100 100
      (Except.error 9)).didFetch = true ∧
    (BroadcastPromise.reject { isLoading := true, resolvers := [0, 1], rejectors := [0, 1] }
      (9 : Nat)).2 = [(0, 9), (1, 9)] :=
  ⟨by decide,
   (failedLoad_frame (E := Nat) (T := Nat)
     { isLoading := true, resolvers := [0, 1], rejectors := [0, 1] } 9
     initCacheState false 100 100 (by decide)).1⟩

/-- Claim C8: `invalidate_cache` sets only `data` to absent, leaving
`lastUpdated` and `lastUsed` unchanged, and the next `get` after it
invokes `load` unconditionally, whatever the clock and `isRefresh`. -/
theorem invalidate_cache_spec {E T : Type} (s : CacheState T) :
    (invalidate_cache s).data = none ∧
    (invalidate_cache s).lastUpdated = s.lastUpdated ∧
    (invalidate_cache s).lastUsed = s.lastUsed ∧
    (∀ (isRefresh : Bool) (nowCheck nowDone : Int) (lr : Except E T),
      (cacheObjectGet (invalidate_cache s) isRefresh nowCheck nowDone lr).didFetch = true) := by
  refine ⟨rfl, rfl, rfl, ?_⟩
  intro isRefresh nowCheck nowDone lr
  rw [cacheObjectGet_didFetch]
  simp [invalidate_cache]

/-- Unless the caller passed `isRefresh = true`, the status cascade of
`RunCache.get` cannot fire when its clock read happens within
`RELOAD_TIMEOUT` of the `lastUpdated` assignment one line earlier,
because line 230 compares against the timestamp line 228 just wrote. -/
theorem runCacheGet_cascade_needs_isRefresh {E T : Type} (s : CacheState T)
    (status : Status) (nowCheck nowDone nowCasc : Int) (lr : Except E T)
    (h : nowCasc - nowDone ≤ RELOAD_TIMEOUT) :
    (runCacheGet s status false nowCheck nowDone nowCasc lr).statusForced = false := by
  unfold runCacheGet
  split
  · cases lr with
    | error e => rfl
    | ok v =>
      have hnot : ¬(nowCasc - nowDone > RELOAD_TIMEOUT) := by omega
      simp [isReloadTimeout, hnot]
  · rfl

/-- Claim C3 evaluated at its failing input: status running, entry stale
(`lastUpdated = 0`, clock `100000`), `isRefresh = false`, load succeeds.
Both `RunCache.get` and `AnalysisDataCache.get` do refresh the body, but
neither issues the forced status refresh the claim requires: line 230
re-checks `isReloadTimeout` against the `lastUpdated` that line 228 just
set to the current time, so the running-branch of the cascade condition
is unsatisfiable in the same call. -/
theorem statusCascade_failing_input :
    (runCacheGet (E := Nat) (T := Nat) { data := some 1, lastUpdated := 0, lastUsed := 0 }
      { isRunning := true } false 100000 100000 100000 (Except.ok 2)).didFetch = true ∧
    (runCacheGet (E := Nat) (T := Nat) { data := some 1, lastUpdated := 0, lastUsed := 0 }
      { isRunning := true } false 100000 100000 100000 (Except.ok 2)).statusForced = false ∧
    (analysisDataCacheGet (E := Nat) (T := Nat) { data := some 1, lastUpdated := 0, lastUsed := 0 }
      { isRunning := true } false 100000 100000 100000 (Except.ok 2)).didFetch = true ∧
    (analysisDataCacheGet (E := Nat) (T := Nat) { data := some 1, lastUpdated := 0, lastUsed := 0 }
      { isRunning := true } false 100000 100000 100000 (Except.ok 2)).statusForced = false := by
  decide

/-- Claim C7: with a cached collection, `deleteRuns`/`deleteSessions`
replace it by the prior items minus those whose identifier is in the
given set, computed independently of the remote deletion's outcome; the
remote outcome is surfaced unchanged (no rollback on failure); with no
cached collection the state is untouched; timestamps never change. -/
theorem removeItems_optimistic {E : Type} (s : CacheState RunsList)
    (t : CacheState SessionsList) (ids : List String) (remote : Except E Unit) :
    (deleteRuns s ids remote).2 = remote ∧
    ((deleteRuns s ids remote).1.data =
      s.data.map fun d => { runs := d.runs.filter fun r => !(ids.contains r.run_uuid) }) ∧
    (∀ remote2 : Except E Unit, (deleteRuns s ids remote).1 = (deleteRuns s ids remote2).1) ∧
    (deleteRuns s ids remote).1.lastUpdated = s.lastUpdated ∧
    (deleteRuns s ids remote).1.lastUsed = s.lastUsed ∧
    (s.data = none → (deleteRuns s ids remote).1 = s) ∧
    (∀ (r : Run) (d : RunsList), s.data = some d →
      (r ∈ (((deleteRuns s ids remote).1.data.getD { runs := [] }).runs) ↔
        r ∈ d.runs ∧ ¬(r.run_uuid ∈ ids))) ∧
    (deleteSessions t ids remote).2 = remote ∧
    ((deleteSessions t ids remote).1.data =
      t.data.map fun d => { sessions := d.sessions.filter fun x => !(ids.contains x.session_uuid) }) ∧
    (t.data = none → (deleteSessions t ids remote).1 = t) := by
  refine ⟨rfl, ?_, ?_, ?_, ?_, ?_, ?_, rfl, ?_, ?_⟩
  · cases h : s.data <;> simp [deleteRuns, h]
  · intro remote2
    cases h : s.data <;> simp [deleteRuns, h]
  · cases h : s.data <;> simp [deleteRuns, h]
  · cases h : s.data <;> simp [deleteRuns, h]
  · intro h
    simp [deleteRuns, h]
  · intro r d h
    simp [deleteRuns, h, List.mem_filter]
  · cases h : t.data <;> simp [deleteSessions, h]
  · intro h
    simp [deleteSessions, h]

/-- Witness for C7: the empty-cache branch at a concrete entry, plus the
scenario items a, b, c minus b. -/
theorem removeItems_optimistic_witness :
    ((initCacheState : CacheState RunsList).data = none) ∧
    (deleteRuns (E := Nat) initCacheState ["b"] (Except.error 3)).1 = initCacheState :=
  ⟨rfl,
   (removeItems_optimistic initCacheState initCacheState ["b"] (Except.error 3)).2.2.2.2.2.1 rfl⟩

/-- Concrete run of the C7 scenario: cached items a, b, c; removing b
yields a, c locally while the remote failure is surfaced unchanged. -/
theorem deleteRuns_scenario :
    (deleteRuns (E := Nat)
      { data := some { runs := [{ run_uuid := "a" }, { run_uuid := "b" }, { run_uuid := "c" }] },
        lastUpdated := 0, lastUsed := 0 } ["b"] (Except.error 3)) =
      ({ data := some { runs := [{ run_uuid := "a" }, { run_uuid := "c" }] },
         lastUpdated := 0, lastUsed := 0 }, Except.error 3) := by
  decide

/-- Claim C9: with a truthy filter argument, `RunsListCache.get` bypasses
the cache entirely: it performs a fetch with exactly that argument,
returns the fetch outcome, and leaves the cached state (value and both
timestamps) unchanged. -/
theorem runsListGet_filtered_bypass {E : Type} (s : CacheState RunsList) (isRefresh : Bool)
    (arg : Option String) (nowCheck nowDone : Int) (lr : Except E RunsList)
    (h : truthyArg arg = true) :
    (runsListGet s isRefresh arg nowCheck nowDone lr).didFetch = true ∧
    (runsListGet s isRefresh arg nowCheck nowDone lr).fetchArg = some arg ∧
    (runsListGet s isRefresh arg nowCheck nowDone lr).state = s ∧
    (∀ v, lr = Except.ok v →
      (runsListGet s isRefresh arg nowCheck nowDone lr).result = Except.ok (some v)) ∧
    (∀ e, lr = Except.error e →
      (runsListGet s isRefresh arg nowCheck nowDone lr).result = Except.error e) := by
  unfold runsListGet
  rw [if_pos h]
  cases lr with
  | error e =>
    refine ⟨rfl, rfl, rfl, ?_, ?_⟩
    · intro v hv
      exact absurd hv (by simp)
    · intro e2 he
      cases he
      rfl
  | ok v =>
    refine ⟨rfl, rfl, rfl, ?_, ?_⟩
    · intro v2 hv
      cases hv
      rfl
    · intro e2 he
      exact absurd he (by simp)

/-- Witness for C9 at the concrete argument "tag". -/
theorem runsListGet_filtered_bypass_witness :
    truthyArg (some "tag") = true ∧
    (runsListGet (E := Nat)
      { data := some { runs := [{ run_uuid := "a" }] }, lastUpdated := 100, lastUsed := 0 }
      false (some "tag") 100 100 (Except.ok { runs := [] })).state =
      { data := some { runs := [{ run_uuid := "a" }] }, lastUpdated := 100, lastUsed := 0 } :=
  ⟨by rfl,
   (runsListGet_filtered_bypass
     { data := some { runs := [{ run_uuid := "a" }] }, lastUpdated := 100, lastUsed := 0 }
     false (some "tag") 100 100 (Except.ok { runs := [] }) (by rfl)).2.2.1⟩

/-- Claim C10: `SessionCache` declares no `get` override, so a session's
`get` is the inherited base `get`: its refresh decision is exactly the
base TTL policy and no status value enters it; by contrast, under a
non-running paired status a soft-stale `RunCache` entry is not refreshed
and never cascades, while the soft-stale session entry is refreshed. -/
theorem sessionCacheGet_not_status_coupled {E : Type} (s : CacheState Session)
    (isRefresh : Bool) (nowCheck nowDone nowCasc : Int) (lr : Except E Session)
    (status : Status) :
    sessionCacheGet s isRefresh nowCheck nowDone lr =
      cacheObjectGet s isRefresh nowCheck nowDone lr ∧
    ((sessionCacheGet s isRefresh nowCheck nowDone lr).didFetch = true ↔
      (s.data = none ∨ nowCheck - s.lastUpdated > RELOAD_TIMEOUT ∨
        (isRefresh = true ∧ nowCheck - s.lastUpdated > FORCE_RELOAD_TIMEOUT))) ∧
    (s.data ≠ none → isReloadTimeout nowCheck s.lastUpdated = true →
      status.isRunning = false →
      (sessionCacheGet s false nowCheck nowDone lr).didFetch = true ∧
      (runCacheGet s status false nowCheck nowDone nowCasc lr).didFetch = false ∧
      (runCacheGet s status false nowCheck nowDone nowCasc lr).statusForced = false) := by
  refine ⟨rfl, ?_, ?_⟩
  · exact (cacheObjectGet_refresh_iff s isRefresh nowCheck nowDone lr).1
  · intro h1 h2 h3
    refine ⟨?_, ?_, ?_⟩
    · unfold sessionCacheGet
      rw [cacheObjectGet_didFetch]
      simp [h2]
    · unfold runCacheGet
      rw [if_neg (by simp [h1, h3, Option.isNone_iff_eq_none])]
    · unfold runCacheGet
      rw [if_neg (by simp [h1, h3, Option.isNone_iff_eq_none])]

/-- Witness for C10: a soft-stale session entry refreshes although the
(hypothetical) status is not running. -/
theorem sessionCacheGet_not_status_coupled_witness :
    ({ data := some { session_uuid := "u" }, lastUpdated := 0, lastUsed := 0 } :
      CacheState Session).data ≠ none ∧
    isReloadTimeout 70000 0 = true ∧
    (sessionCacheGet (E := Nat)
      { data := some { session_uuid := "u" }, lastUpdated := 0, lastUsed := 0 }
      false 70000 70000 (Except.ok { session_uuid := "u" })).didFetch = true :=
  ⟨by decide, by decide,
   ((sessionCacheGet_not_status_coupled
     { data := some { session_uuid := "u" }, lastUpdated := 0, lastUsed := 0 }
     false 70000 70000 70000 (Except.ok { session_uuid := "u" })
     { isRunning := false }).2.2 (by decide) (by decide) rfl).1⟩

/-- A registry in a state where every kind of entry was handed out
earlier and the runs-list singleton holds a value fetched at time 100. -/
def sampleWorld : World :=
  { cache := { runs := [("r", 0)], sessions := [], runStatuses := [], sessionStatuses := [],
               user := some 0, runsList := some 0, sessionsList := none },
    runHeap := [{ data := some { run_uuid := "r" }, lastUpdated := 100, lastUsed := 0 }],
    userHeap := [{ data := some User.mk, lastUpdated := 100, lastUsed := 0 }],
    runsListHeap := [{ data := some { runs := [] }, lastUpdated := 100, lastUsed := 0 }] }

/-- Counterexample to claim C4 as stated: in `sampleWorld` the runs-list
reference previously returned by the registry (heap address 0) holds a
value fetched at time 100; `invalidateCache` leaves that object
untouched, so a `get` on the old reference at time 200 (inside both
staleness windows) performs no fetch and serves the cached value. -/
theorem invalidateAll_counterexample :
    (runsListGet (E := Nat)
      ((invalidateCache sampleWorld).runsListHeap.getD 0 initCacheState)
      false none 200 200 (Except.ok { runs := [{ run_uuid := "x" }] })).didFetch = false ∧
    (runsListGet (E := Nat)
      ((invalidateCache sampleWorld).runsListHeap.getD 0 initCacheState)
      false none 200 200 (Except.ok { runs := [{ run_uuid := "x" }] })).result =
      Except.ok (some { runs := [] }) := by
  decide

/-- Claim C4 (amended): `invalidateCache` empties every keyed mapping and
drops the registry's list references, so a runs-list entry re-obtained
from the registry afterwards starts with no value and its first `get`
fetches; the user singleton is invalidated in place, so even the
previously-returned user reference fetches on its next `get`; but
previously-returned keyed-entry and list-entry references are left
untouched and may serve their cached value without a fetch. -/
theorem invalidateAll_spec {E : Type} (w : World) :
    ((invalidateCache w).cache.runs = [] ∧
     (invalidateCache w).cache.sessions = [] ∧
     (invalidateCache w).cache.runStatuses = [] ∧
     (invalidateCache w).cache.sessionStatuses = [] ∧
     (invalidateCache w).cache.runsList = none ∧
     (invalidateCache w).cache.sessionsList = none) ∧
    (∀ a : Nat, w.cache.user = some a → a < w.userHeap.length →
      ((invalidateCache w).userHeap.getD a initCacheState).data = none ∧
      (∀ (isRefresh : Bool) (nowCheck nowDone : Int) (lr : Except E User),
        (cacheObjectGet ((invalidateCache w).userHeap.getD a initCacheState)
          isRefresh nowCheck nowDone lr).didFetch = true)) ∧
    ((cacheGetRunsList (invalidateCache w)).1.runsListHeap.getD
        (cacheGetRunsList (invalidateCache w)).2 initCacheState).data = none ∧
    (invalidateCache w).runsListHeap = w.runsListHeap ∧
    (invalidateCache w).runHeap = w.runHeap := by
  refine ⟨⟨rfl, rfl, rfl, rfl, rfl, rfl⟩, ?_, ?_, rfl, rfl⟩
  · intro a ha hlt
    have hd : ((invalidateCache w).userHeap.getD a initCacheState).data = none := by
      simp only [invalidateCache, ha]
      rw [List.getD_eq_getElem?_getD, List.getElem?_set_self hlt]
      rfl
    refine ⟨hd, ?_⟩
    intro isRefresh nowCheck nowDone lr
    rw [cacheObjectGet_didFetch]
    simp only [List.getD_eq_getElem?_getD] at hd
    simp [hd]
  · have hnone : (invalidateCache w).cache.runsList = none := rfl
    simp only [cacheGetRunsList, hnone]
    rw [List.getD_eq_getElem?_getD, List.getElem?_concat_length]
    rfl

/-- Witness for the amended C4 at `sampleWorld`. -/
theorem invalidateAll_spec_witness :
    sampleWorld.cache.user = some 0 ∧ 0 < sampleWorld.userHeap.length ∧
    ((invalidateCache sampleWorld).userHeap.getD 0 initCacheState).data = none :=
  ⟨rfl, by decide, ((invalidateAll_spec (E := Nat) sampleWorld).2.1 0 rfl (by decide)).1⟩

end LabmlCache
